import Mathlib

/-!
Shallow embedding of the rootCauseAI VS Code extension
(`src/extension/src/...`): the backend client, configuration provider,
notification facade and the five command handlers (Fix, Explain, Undo,
ShowHistory, ShowStats).

The TypeScript command handlers are asynchronous orchestrations whose only
observable behaviour is the sequence of UI effects (notifications, panels,
dialogs) and backend requests they perform.  Each handler is embedded as a
pure function from an *environment* — the answers the outside world gives to
each interactive prompt and each backend call — to the list of `Event`s the
handler performs, in order.  Fallible backend calls are `Except String α`
oracles (`Except.error m` models a thrown error whose `.message` is `m`).
JavaScript truthiness on optional strings (`x || d`), on optional lists
(`result.fixes || []`) and on numbers (`0` is falsy) is modelled explicitly.
JS numbers carrying fractional confidence values are modelled as exact
rationals (`Rat`).
-/

deriving instance DecidableEq for Except

/-- JS `o || d` for an optional string field: `undefined` and the empty
string (both falsy) fall back to the default `d`. -/
def jsOrStr (o : Option String) (d : String) : String :=
  match o with
  | some s => if s = "" then d else s
  | none => d

/-- JS string interpolation `${o}` of an optional string: `undefined`
renders as the literal text "undefined". -/
def jsShowOptStr (o : Option String) : String :=
  match o with
  | some s => s
  | none => "undefined"

/-- JS `String.prototype.endsWith`, modelled as a character-suffix test. -/
def jsEndsWith (s suff : String) : Bool :=
  List.isSuffixOf suff.data s.data

/-- JS `Number.prototype.toFixed(0)` on an exact rational: the nearest
integer, ties resolved to the larger integer (round half up). -/
def jsToFixed0 (x : Rat) : Int :=
  Rat.floor (x + 1/2)

/-- One candidate fix (interface `FixSuggestion`, `backendClient.ts`). -/
structure FixSuggestion where
  file_path : String
  original_snippet : String
  new_snippet : String
  explanation : String
  confidence : Rat
  line_number : Option Int
deriving DecidableEq, Repr

/-- Result of one analysis request (interface `AnalyzeResponse`,
`backendClient.ts`).  `fixes` is declared non-optional in the TS interface
but the handler guards `!result.fixes`, so the runtime value may be absent:
it is modelled as an `Option`.  `parsed_error` is `any` in the source and
none of its structure is needed here, so it is kept as an opaque optional
payload. -/
structure AnalyzeResponse where
  status : String
  parsed_error : Option String
  root_cause_analysis : Option String
  fixes : Option (List FixSuggestion)
  execution_time : Rat
  tokens_used : Int
  error_message : Option String
deriving DecidableEq, Repr

/-- Result of committing one fix (interface `ApplyFixResponse`). -/
structure ApplyFixResponse where
  success : Bool
  message : String
  fix_id : Option String
deriving DecidableEq, Repr

/-- One audit record (interface `HistoryItem`). -/
structure HistoryItem where
  fix_id : String
  file_path : String
  timestamp : String
  reverted : Bool
deriving DecidableEq, Repr

/-- Aggregate counters (interface `Stats`). -/
structure Stats where
  total_fixes : Int
  active_fixes : Int
  reverted_count : Int
  files_modified : Int
deriving DecidableEq, Repr

/-- Body of the `GET /` health response: `response.data.status` is read from
an `any`-typed payload, so the field may be absent. -/
structure HealthBody where
  status : Option String
deriving DecidableEq, Repr

/-- Body of the undo endpoints: the success flag and message. -/
structure UndoResponse where
  success : Bool
  message : String
deriving DecidableEq, Repr

/-- JS `result.fixes || []` (`fixError.ts` guard / `explainError.ts` line 56). -/
def jsFixes (o : Option (List FixSuggestion)) : List FixSuggestion :=
  match o with
  | some l => l
  | none => []

/-- One quick-pick entry as built in `FixErrorCommand.showAndApplyFixes`
(lines 131–136): label, description, detail, and the carried fix. -/
structure QPItem where
  label : String
  description : String
  detail : String
  fix : FixSuggestion
deriving DecidableEq, Repr

/-- A row of the history table as rendered by
`ShowHistoryCommand.getHistoryHtml`: fix id, file path, raw timestamp (the
locale-dependent `toLocaleString` formatting is kept abstract), and the
status label chosen by `fix.reverted`. -/
structure HistoryRow where
  fix_id : String
  file_path : String
  timestamp : String
  statusLabel : String
deriving DecidableEq, Repr

/-- Observable UI effects and backend requests of the command handlers. -/
inductive Event where
  | errorNotif (msg : String)
  | warnNotif (msg : String)
  | infoNotif (msg : String)
  | rootCausePanel (analysis : String)
  | quickPick (items : List QPItem)
  | diffPreview (original fixed : String)
  | confirmDialog (msg : String)
  | applyFixRequest (fix : FixSuggestion) (language : String)
  | undoLastRequest
  | historyRequest (count : Nat)
  | historyPanel (rows : List HistoryRow)
  | explanationPanel (fixRows : List (String × String))
  | statsRequest
  | statsPanel (s : Stats)
deriving DecidableEq, Repr

namespace Notifications

/-- Embeds `Notifications.showError` (`notifications.ts`): error message with the
fixed product tag. -/
def showError (message : String) : Event :=
  Event.errorNotif ("rootCauseAI: " ++ message)

/-- Embeds `Notifications.showWarning`. -/
def showWarning (message : String) : Event :=
  Event.warnNotif ("rootCauseAI: " ++ message)

/-- Embeds `Notifications.showInfo`. -/
def showInfo (message : String) : Event :=
  Event.infoNotif ("rootCauseAI: " ++ message)

/-- Embeds `Notifications.confirm`: the modal Yes/No dialog shown to the user (the
user's answer is part of the environment). -/
def confirm (message : String) : Event :=
  Event.confirmDialog ("rootCauseAI: " ++ message)

end Notifications

namespace BackendClient

/-- Embeds `BackendClient.checkHealth` (`backendClient.ts` lines 97–104): the GET /
call either throws (`Except.error`) — caught, returning `false` — or yields
a body whose `status` field is compared against the string "running". -/
def checkHealth (resp : Except String HealthBody) : Bool :=
  match resp with
  | Except.error _ => false
  | Except.ok body => body.status == some "running"

end BackendClient

/-- The `rootcauseai.*` workspace settings as stored by the host editor:
each key may be absent. -/
structure WorkspaceSettings where
  backendUrl : Option String
  provider : Option String
  maxRetries : Option Int
  autoStartBackend : Option Bool
deriving DecidableEq, Repr

namespace Config

/-- Embeds `Config.getBackendUrl` (`config.ts`): `get("backendUrl") || "http://localhost:8000"`. -/
def getBackendUrl (s : WorkspaceSettings) : String :=
  jsOrStr s.backendUrl "http://localhost:8000"

/-- Embeds `Config.getProvider`: `get("provider") || "gemini"`. -/
def getProvider (s : WorkspaceSettings) : String :=
  jsOrStr s.provider "gemini"

/-- Embeds `Config.getMaxRetries`: `get("maxRetries") || 2`; the JS `||` makes the
falsy number `0` fall back to the default as well. -/
def getMaxRetries (s : WorkspaceSettings) : Int :=
  match s.maxRetries with
  | some n => if n = 0 then 2 else n
  | none => 2

/-- Embeds `Config.getAutoStartBackend`: `get("autoStartBackend") || false`. -/
def getAutoStartBackend (s : WorkspaceSettings) : Bool :=
  match s.autoStartBackend with
  | some b => b
  | none => false

end Config

/-- Confidence percentage text `${(fix.confidence * 100).toFixed(0)}%` as it
appears in `fixError.ts` line 133 and `explainError.ts` line 115. -/
def pct (c : Rat) : String :=
  toString (jsToFixed0 (c * 100)) ++ "%"

namespace FixErrorCommand

/-- Embeds `FixErrorCommand.detectLanguage` (`fixError.ts` lines 207–216). -/
def detectLanguage (filePath : String) : String :=
  if jsEndsWith filePath ".py" then "python"
  else if jsEndsWith filePath ".js" || jsEndsWith filePath ".jsx" then "javascript"
  else if jsEndsWith filePath ".ts" || jsEndsWith filePath ".tsx" then "typescript"
  else "python"

end FixErrorCommand

/-- Environment of one `FixErrorCommand.execute` invocation: the health
response, the input-box answer (`none` = cancelled; the empty string is
falsy and treated as no log), the analyze call's outcome, the quick-pick
selection (an index into the item list; `none` or an out-of-range index
models dismissing the picker), the confirmation answer, and the apply-fix
call's outcome. -/
structure FixEnv where
  healthResp : Except String HealthBody
  errorLog : Option String
  analyzeResp : Except String AnalyzeResponse
  quickPickChoice : Option Nat
  confirmApply : Bool
  applyResp : Except String ApplyFixResponse
deriving DecidableEq, Repr

namespace FixErrorCommand

/-- The quick-pick items built from the fixes list in server order
(`fixError.ts` lines 131–136). -/
def quickPickItems (fixes : List FixSuggestion) : List QPItem :=
  fixes.enum.map fun p =>
    { label := "$(tools) Fix " ++ toString (p.1 + 1) ++ ": " ++ p.2.file_path
      description := "Confidence: " ++ pct p.2.confidence
      detail := p.2.explanation
      fix := p.2 }

/-- The fix the user ends up selecting from the quick pick: the item at the
chosen index, or `none` when the picker was dismissed. -/
def selectedFix (env : FixEnv) (fixes : List FixSuggestion) : Option FixSuggestion :=
  match env.quickPickChoice with
  | none => none
  | some i => fixes[i]?

/-- Embeds `FixErrorCommand.applyFix` (`fixError.ts` lines 185–205): issue the
apply-fix request; its thrown error is caught locally ("Error applying
fix: ..."), and an answered request reports success or failure. -/
def applyFixTrace (env : FixEnv) (fix : FixSuggestion) : List Event :=
  Event.applyFixRequest fix (detectLanguage fix.file_path) ::
  match env.applyResp with
  | Except.error m => [Notifications.showError ("Error applying fix: " ++ m)]
  | Except.ok r =>
    if r.success then
      [Notifications.showInfo ("Fix applied successfully! (ID: " ++ jsShowOptStr r.fix_id ++ ")")]
    else
      [Notifications.showError ("Failed to apply fix: " ++ r.message)]

/-- Embeds `FixErrorCommand.showAndApplyFixes` (`fixError.ts` lines 122–162):
present the quick pick; on a selection, preview the diff, ask for
confirmation, and only on Yes run `applyFix`.  The `rootCause` parameter is
carried exactly as in the source, which declares but never uses it. -/
def showAndApplyFixes (env : FixEnv) (fixes : List FixSuggestion)
    (_rootCause : Option String) : List Event :=
  Event.quickPick (quickPickItems fixes) ::
  match selectedFix env fixes with
  | none => []
  | some fix =>
    Event.diffPreview fix.original_snippet fix.new_snippet ::
    Notifications.confirm "Apply this fix to your code?" ::
    if env.confirmApply then applyFixTrace env fix else []

/-- Embeds `FixErrorCommand.execute` (`fixError.ts` lines 13–66): health gate,
error-log prompt, analyze call (a thrown error is caught at the top level as
"Error: ..."), then the three-way branch on `status === "failed"`, empty
fixes, and non-empty fixes. -/
def execute (env : FixEnv) : List Event :=
  if !(BackendClient.checkHealth env.healthResp) then
    [Notifications.showError
      "Backend server is not running. Please start it with: python backend/server.py"]
  else
    match env.errorLog with
    | none => [Notifications.showWarning "No error log provided"]
    | some log =>
      if log = "" then [Notifications.showWarning "No error log provided"]
      else
        match env.analyzeResp with
        | Except.error m => [Notifications.showError ("Error: " ++ m)]
        | Except.ok result =>
          if result.status = "failed" then
            [Notifications.showError (jsOrStr result.error_message "Failed to analyze error")]
          else if (jsFixes result.fixes).isEmpty then
            Notifications.showWarning "No fixes generated. The error might be too complex." ::
            (match result.root_cause_analysis with
             | some rc => if rc = "" then [] else [Event.rootCausePanel rc]
             | none => [])
          else
            showAndApplyFixes env (jsFixes result.fixes) result.root_cause_analysis

end FixErrorCommand

/-- Environment of one `UndoFixCommand.execute` invocation. -/
structure UndoEnv where
  confirmUndo : Bool
  undoResp : Except String UndoResponse
deriving DecidableEq, Repr

namespace UndoFixCommand

/-- Embeds `UndoFixCommand.execute` (`undoFix.ts` lines 13–33): confirmation
dialog; on No, return with no backend call; on Yes, issue the undo-last
request and report its outcome (a thrown error is caught as "Error: ..."). -/
def execute (env : UndoEnv) : List Event :=
  Notifications.confirm "Undo the last fix?" ::
  if !env.confirmUndo then []
  else
    Event.undoLastRequest ::
    match env.undoResp with
    | Except.error m => [Notifications.showError ("Error: " ++ m)]
    | Except.ok r =>
      if r.success then [Notifications.showInfo r.message]
      else [Notifications.showError r.message]

end UndoFixCommand

/-- Environment of one `ShowHistoryCommand.execute` invocation. -/
structure HistoryEnv where
  historyResp : Except String (List HistoryItem)
deriving DecidableEq, Repr

namespace ShowHistoryCommand

/-- One table row of `getHistoryHtml`: the status cell text is
"🔴 Reverted" or "✅ Active" by `fix.reverted`. -/
def historyRow (h : HistoryItem) : HistoryRow :=
  { fix_id := h.fix_id
    file_path := h.file_path
    timestamp := h.timestamp
    statusLabel := if h.reverted then "🔴 Reverted" else "✅ Active" }

/-- Embeds `ShowHistoryCommand.execute` (`part_000` lines 13–37): request 20 items;
an empty result shows an informational message and no panel; a non-empty
result renders the table, one row per item in server order; a thrown error
is caught as "Error: ...". -/
def execute (env : HistoryEnv) : List Event :=
  Event.historyRequest 20 ::
  match env.historyResp with
  | Except.error m => [Notifications.showError ("Error: " ++ m)]
  | Except.ok items =>
    if items.length = 0 then [Notifications.showInfo "No fix history available"]
    else [Event.historyPanel (items.map historyRow)]

end ShowHistoryCommand

/-- Environment of one `ShowStatsCommand.execute` invocation. -/
structure StatsEnv where
  statsResp : Except String Stats
deriving DecidableEq, Repr

namespace ShowStatsCommand

/-- Embeds `ShowStatsCommand.execute` (`part_001` lines 13–86): fetch the stats and
render the metric grid; a thrown error is caught as "Error: ...". -/
def execute (env : StatsEnv) : List Event :=
  Event.statsRequest ::
  match env.statsResp with
  | Except.error m => [Notifications.showError ("Error: " ++ m)]
  | Except.ok s => [Event.statsPanel s]

end ShowStatsCommand

/-- Environment of one `ExplainErrorCommand.execute` invocation:
`editorSelection = none` models no active editor, `some ""` an empty (falsy)
selection. -/
structure ExplainEnv where
  editorSelection : Option String
  analyzeResp : Except String AnalyzeResponse
deriving DecidableEq, Repr

namespace ExplainErrorCommand

/-- The per-fix lines of the explanation panel (`explainError.ts` lines
113–116): for each fix, its numbered explanation line and its confidence
line. -/
def explanationFixRows (fixes : List FixSuggestion) : List (String × String) :=
  fixes.enum.map fun p =>
    ("Fix " ++ toString (p.1 + 1) ++ ": " ++ p.2.explanation,
     "Confidence: " ++ pct p.2.confidence)

/-- Embeds `ExplainErrorCommand.execute` (`explainError.ts` lines 13–44): editor
and selection gates, analyze call (thrown error caught as "Error: ..."),
then the explanation panel over `result.fixes || []`. -/
def execute (env : ExplainEnv) : List Event :=
  match env.editorSelection with
  | none => [Notifications.showWarning "No active editor"]
  | some sel =>
    if sel = "" then [Notifications.showWarning "Please select an error message"]
    else
      match env.analyzeResp with
      | Except.error m => [Notifications.showError ("Error: " ++ m)]
      | Except.ok result =>
        [Event.explanationPanel (explanationFixRows (jsFixes result.fixes))]

end ExplainErrorCommand

/-! ## Helper lemmas -/

theorem jsEndsWith_comparable (p a b : String) (ha : jsEndsWith p a = true)
    (hb : jsEndsWith p b = true) : a.data <:+ b.data ∨ b.data <:+ a.data := by
  simp only [jsEndsWith] at ha hb
  exact List.suffix_or_suffix_of_suffix
    (List.isSuffixOf_iff_suffix.mp ha) (List.isSuffixOf_iff_suffix.mp hb)

theorem jsEndsWith_false_of_incomparable (p a b : String) (ha : jsEndsWith p a = true)
    (h : ¬(a.data <:+ b.data ∨ b.data <:+ a.data)) : jsEndsWith p b = false := by
  cases hb : jsEndsWith p b with
  | false => rfl
  | true => exact absurd (jsEndsWith_comparable p a b ha hb) h

/-! ## Claims -/

/-- C2: `checkHealth` never throws: every transport-level failure of the
GET / request yields `false`, and on a received response it returns `true`
iff the body's `status` field is exactly the string "running".  (Totality of
the embedded function models "never throws": the thrown transport error is
the `Except.error` case, which is caught and mapped to `false`.) -/
theorem checkHealth_total_spec :
    (∀ e : String, BackendClient.checkHealth (Except.error e) = false)
  ∧ (∀ body : HealthBody,
      (BackendClient.checkHealth (Except.ok body) = true ↔ body.status = some "running")) := by
  constructor
  · intro e; rfl
  · intro body; simp [BackendClient.checkHealth]

/-- Witness for C2 at concrete inputs. -/
theorem checkHealth_total_spec_witness :
    BackendClient.checkHealth (Except.error "ECONNREFUSED") = false
  ∧ BackendClient.checkHealth (Except.ok { status := some "running" }) = true
  ∧ BackendClient.checkHealth (Except.ok { status := some "stopped" }) = false := by
  refine ⟨checkHealth_total_spec.1 "ECONNREFUSED",
    (checkHealth_total_spec.2 { status := some "running" }).mpr rfl, ?_⟩
  cases hb : BackendClient.checkHealth (Except.ok { status := some "stopped" }) with
  | false => rfl
  | true =>
    have := (checkHealth_total_spec.2 { status := some "stopped" }).mp hb
    simp at this

/-- C6: in the Undo command, declining the confirmation dialog ends the
invocation with no backend call: the trace is just the dialog, with no
undo-last request; and any undo-last request in a trace implies the
confirmation was answered affirmatively. -/
theorem undo_confirmation_gate (env : UndoEnv) :
    (env.confirmUndo = false →
      UndoFixCommand.execute env = [Notifications.confirm "Undo the last fix?"]
      ∧ Event.undoLastRequest ∉ UndoFixCommand.execute env)
  ∧ (Event.undoLastRequest ∈ UndoFixCommand.execute env → env.confirmUndo = true) := by
  constructor
  · intro h
    constructor
    · simp [UndoFixCommand.execute, h]
    · simp [UndoFixCommand.execute, h, Notifications.confirm]
  · intro hmem
    cases h : env.confirmUndo with
    | true => rfl
    | false => simp [UndoFixCommand.execute, h, Notifications.confirm] at hmem

/-- Witness for C6: a declined confirmation with a concrete environment. -/
theorem undo_confirmation_gate_witness :
    UndoFixCommand.execute { confirmUndo := false, undoResp := Except.error "sim" }
      = [Notifications.confirm "Undo the last fix?"]
    ∧ Event.undoLastRequest
        ∉ UndoFixCommand.execute { confirmUndo := false, undoResp := Except.error "sim" } :=
  (undo_confirmation_gate { confirmUndo := false, undoResp := Except.error "sim" }).1 rfl

/-- C7: `detectLanguage` is a pure total function on file-path strings:
paths ending in ".py" map to "python", ".js" or ".jsx" to "javascript",
".ts" or ".tsx" to "typescript", and paths ending in none of those
extensions map to the default "python". -/
theorem detectLanguage_pure_spec (p : String) :
    (jsEndsWith p ".py" = true → FixErrorCommand.detectLanguage p = "python")
  ∧ ((jsEndsWith p ".js" = true ∨ jsEndsWith p ".jsx" = true) →
      FixErrorCommand.detectLanguage p = "javascript")
  ∧ ((jsEndsWith p ".ts" = true ∨ jsEndsWith p ".tsx" = true) →
      FixErrorCommand.detectLanguage p = "typescript")
  ∧ (jsEndsWith p ".py" = false → jsEndsWith p ".js" = false →
     jsEndsWith p ".jsx" = false → jsEndsWith p ".ts" = false →
     jsEndsWith p ".tsx" = false → FixErrorCommand.detectLanguage p = "python") := by
  refine ⟨?_, ?_, ?_, ?_⟩
  · intro h; simp [FixErrorCommand.detectLanguage, h]
  · rintro (h | h)
    · have hpy := jsEndsWith_false_of_incomparable p ".js" ".py" h (by decide)
      simp [FixErrorCommand.detectLanguage, hpy, h]
    · have hpy := jsEndsWith_false_of_incomparable p ".jsx" ".py" h (by decide)
      simp [FixErrorCommand.detectLanguage, hpy, h]
  · rintro (h | h)
    · have hpy := jsEndsWith_false_of_incomparable p ".ts" ".py" h (by decide)
      have hjs := jsEndsWith_false_of_incomparable p ".ts" ".js" h (by decide)
      have hjsx := jsEndsWith_false_of_incomparable p ".ts" ".jsx" h (by decide)
      simp [FixErrorCommand.detectLanguage, hpy, hjs, hjsx, h]
    · have hpy := jsEndsWith_false_of_incomparable p ".tsx" ".py" h (by decide)
      have hjs := jsEndsWith_false_of_incomparable p ".tsx" ".js" h (by decide)
      have hjsx := jsEndsWith_false_of_incomparable p ".tsx" ".jsx" h (by decide)
      simp [FixErrorCommand.detectLanguage, hpy, hjs, hjsx, h]
  · intro h1 h2 h3 h4 h5
    simp [FixErrorCommand.detectLanguage, h1, h2, h3, h4, h5]

/-- Witness for C7 at the spec's example paths. -/
theorem detectLanguage_pure_spec_witness :
    FixErrorCommand.detectLanguage "a.py" = "python"
  ∧ FixErrorCommand.detectLanguage "a.js" = "javascript"
  ∧ FixErrorCommand.detectLanguage "a.jsx" = "javascript"
  ∧ FixErrorCommand.detectLanguage "a.ts" = "typescript"
  ∧ FixErrorCommand.detectLanguage "a.tsx" = "typescript"
  ∧ FixErrorCommand.detectLanguage "a.txt" = "python" :=
  ⟨(detectLanguage_pure_spec "a.py").1 (by decide),
   (detectLanguage_pure_spec "a.js").2.1 (Or.inl (by decide)),
   (detectLanguage_pure_spec "a.jsx").2.1 (Or.inr (by decide)),
   (detectLanguage_pure_spec "a.ts").2.2.1 (Or.inl (by decide)),
   (detectLanguage_pure_spec "a.tsx").2.2.1 (Or.inr (by decide)),
   (detectLanguage_pure_spec "a.txt").2.2.2
     (by decide) (by decide) (by decide) (by decide) (by decide)⟩

/-- C9: the ShowHistory command requests exactly 20 items; an empty result
shows an informational message and creates no table panel; a non-empty
result renders the table with one row per item, in server order. -/
theorem history_request_and_table (env : HistoryEnv) (items : List HistoryItem) :
    (ShowHistoryCommand.execute env).head? = some (Event.historyRequest 20)
  ∧ (env.historyResp = Except.ok [] →
      ShowHistoryCommand.execute env
        = [Event.historyRequest 20, Notifications.showInfo "No fix history available"]
      ∧ ∀ rows, Event.historyPanel rows ∉ ShowHistoryCommand.execute env)
  ∧ (env.historyResp = Except.ok items → items ≠ [] →
      ShowHistoryCommand.execute env
        = [Event.historyRequest 20,
           Event.historyPanel (items.map ShowHistoryCommand.historyRow)])
  ∧ (items.map ShowHistoryCommand.historyRow).length = items.length := by
  refine ⟨rfl, ?_, ?_, by simp⟩
  · intro h
    constructor
    · simp [ShowHistoryCommand.execute, h]
    · simp [ShowHistoryCommand.execute, h, Notifications.showInfo]
  · intro h hne
    have hlen : ¬items.length = 0 := by simpa using hne
    simp [ShowHistoryCommand.execute, h, hlen]

/-- Witness for C9: a concrete empty result and a concrete singleton result. -/
theorem history_request_and_table_witness :
    ShowHistoryCommand.execute { historyResp := Except.ok [] }
      = [Event.historyRequest 20, Notifications.showInfo "No fix history available"]
    ∧ ShowHistoryCommand.execute
        { historyResp := Except.ok [{ fix_id := "f1", file_path := "a.py",
                                      timestamp := "t", reverted := false }] }
      = [Event.historyRequest 20,
         Event.historyPanel [{ fix_id := "f1", file_path := "a.py",
                               timestamp := "t", statusLabel := "✅ Active" }]] :=
  ⟨((history_request_and_table { historyResp := Except.ok [] } []).2.1 rfl).1,
   (history_request_and_table
      { historyResp := Except.ok [{ fix_id := "f1", file_path := "a.py",
                                    timestamp := "t", reverted := false }] }
      [{ fix_id := "f1", file_path := "a.py", timestamp := "t", reverted := false }]).2.2.1
     rfl (by decide)⟩

/-- C10: each Config accessor falls back to its hard-coded default for any
falsy configured value, not only when the setting is absent: a stored 0 for
maxRetries yields 2, a stored empty string for backendUrl yields
"http://localhost:8000", and a stored empty string for provider yields
"gemini" (the absent-setting cases are included for comparison). -/
theorem config_falsy_fallback (s : WorkspaceSettings) :
    Config.getMaxRetries { s with maxRetries := some 0 } = 2
  ∧ Config.getBackendUrl { s with backendUrl := some "" } = "http://localhost:8000"
  ∧ Config.getProvider { s with provider := some "" } = "gemini"
  ∧ Config.getMaxRetries { s with maxRetries := none } = 2
  ∧ Config.getBackendUrl { s with backendUrl := none } = "http://localhost:8000"
  ∧ Config.getProvider { s with provider := none } = "gemini" :=
  ⟨rfl, rfl, rfl, rfl, rfl, rfl⟩

/-- C8: a fix's confidence `c` is rendered, in both the fix-selection quick
pick and the explanation panel, as the text "Confidence: " followed by the
whole-number percentage of `c * 100` rounded to the nearest integer,
followed by "%"; in particular 0.87 renders as "87%". -/
theorem confidence_percentage_rendering (fixes : List FixSuggestion) (c : Rat) (n : Int) :
    ((FixErrorCommand.quickPickItems fixes).map QPItem.description
      = fixes.map fun f => "Confidence: " ++ pct f.confidence)
  ∧ ((ExplainErrorCommand.explanationFixRows fixes).map Prod.snd
      = fixes.map fun f => "Confidence: " ++ pct f.confidence)
  ∧ ((n : Rat) - 1/2 ≤ c * 100 ∧ c * 100 < (n : Rat) + 1/2 → pct c = toString n ++ "%")
  ∧ pct (87/100) = "87%" := by
  refine ⟨?_, ?_, ?_, by with_unfolding_all decide⟩
  · simp only [FixErrorCommand.quickPickItems, List.map_map]
    conv_rhs => rw [← List.enum_map_snd fixes, List.map_map]
    rfl
  · simp only [ExplainErrorCommand.explanationFixRows, List.map_map]
    conv_rhs => rw [← List.enum_map_snd fixes, List.map_map]
    rfl
  · rintro ⟨h1, h2⟩
    have hfl : jsToFixed0 (c * 100) = n := by
      simp only [jsToFixed0]
      have hlo : n ≤ Rat.floor (c * 100 + 1/2) := by
        rw [Rat.le_floor]
        linarith
      have hhi : ¬(n + 1 ≤ Rat.floor (c * 100 + 1/2)) := by
        intro hle
        rw [Rat.le_floor] at hle
        push_cast at hle
        linarith
      omega
    simp [pct, hfl]

/-- Witness for C8: the spec's example 0.87 → "87%", obtained from the
rounding clause at c = 87/100, n = 87. -/
theorem confidence_percentage_rendering_witness :
    pct (87/100) = "87%" := by
  have h := (confidence_percentage_rendering [] (87/100) 87).2.2.1
    (by constructor <;> (with_unfolding_all decide))
  rw [h]
  with_unfolding_all decide

/-- C4: each command handler catches exceptions thrown by the backend
client and surfaces an error notification carrying the underlying message,
returning a well-defined trace (the embedded executes are total functions,
so no invocation rejects): the Fix command's analyze step and inner apply
step, the Explain command's analyze step, the Undo command's undo step, the
ShowHistory fetch and the ShowStats fetch. -/
theorem execute_surfaces_backend_errors :
    (∀ (env : FixEnv) (log m : String), BackendClient.checkHealth env.healthResp = true →
      env.errorLog = some log → log ≠ "" → env.analyzeResp = Except.error m →
      FixErrorCommand.execute env = [Notifications.showError ("Error: " ++ m)])
  ∧ (∀ (env : FixEnv) (fx : FixSuggestion) (m : String), env.applyResp = Except.error m →
      FixErrorCommand.applyFixTrace env fx
        = [Event.applyFixRequest fx (FixErrorCommand.detectLanguage fx.file_path),
           Notifications.showError ("Error applying fix: " ++ m)])
  ∧ (∀ (env : ExplainEnv) (sel m : String), env.editorSelection = some sel → sel ≠ "" →
      env.analyzeResp = Except.error m →
      ExplainErrorCommand.execute env = [Notifications.showError ("Error: " ++ m)])
  ∧ (∀ (env : UndoEnv) (m : String), env.confirmUndo = true → env.undoResp = Except.error m →
      UndoFixCommand.execute env
        = [Notifications.confirm "Undo the last fix?", Event.undoLastRequest,
           Notifications.showError ("Error: " ++ m)])
  ∧ (∀ (env : HistoryEnv) (m : String), env.historyResp = Except.error m →
      ShowHistoryCommand.execute env
        = [Event.historyRequest 20, Notifications.showError ("Error: " ++ m)])
  ∧ (∀ (env : StatsEnv) (m : String), env.statsResp = Except.error m →
      ShowStatsCommand.execute env
        = [Event.statsRequest, Notifications.showError ("Error: " ++ m)]) := by
  refine ⟨?_, ?_, ?_, ?_, ?_, ?_⟩
  · intro env log m hh hl hne ha
    simp [FixErrorCommand.execute, hh, hl, hne, ha]
  · intro env fx m ha
    simp [FixErrorCommand.applyFixTrace, ha]
  · intro env sel m hs hne ha
    simp [ExplainErrorCommand.execute, hs, hne, ha]
  · intro env m hc hu
    simp [UndoFixCommand.execute, hc, hu]
  · intro env m hh
    simp [ShowHistoryCommand.execute, hh]
  · intro env m hs
    simp [ShowStatsCommand.execute, hs]

/-- Witness for C4: each clause applied to a concrete failing environment. -/
theorem execute_surfaces_backend_errors_witness :
    FixErrorCommand.execute
      { healthResp := Except.ok { status := some "running" }, errorLog := some "trace",
        analyzeResp := Except.error "boom", quickPickChoice := none,
        confirmApply := false, applyResp := Except.error "boom" }
      = [Notifications.showError ("Error: " ++ "boom")]
  ∧ ExplainErrorCommand.execute
      { editorSelection := some "trace", analyzeResp := Except.error "boom" }
      = [Notifications.showError ("Error: " ++ "boom")]
  ∧ UndoFixCommand.execute { confirmUndo := true, undoResp := Except.error "boom" }
      = [Notifications.confirm "Undo the last fix?", Event.undoLastRequest,
         Notifications.showError ("Error: " ++ "boom")]
  ∧ ShowHistoryCommand.execute { historyResp := Except.error "boom" }
      = [Event.historyRequest 20, Notifications.showError ("Error: " ++ "boom")]
  ∧ ShowStatsCommand.execute { statsResp := Except.error "boom" }
      = [Event.statsRequest, Notifications.showError ("Error: " ++ "boom")] :=
  ⟨execute_surfaces_backend_errors.1 _ "trace" "boom" rfl rfl (by decide) rfl,
   execute_surfaces_backend_errors.2.2.1 _ "trace" "boom" rfl (by decide) rfl,
   execute_surfaces_backend_errors.2.2.2.1 _ "boom" rfl rfl,
   execute_surfaces_backend_errors.2.2.2.2.1 _ "boom" rfl,
   execute_surfaces_backend_errors.2.2.2.2.2 _ "boom" rfl⟩

theorem applyFixRequest_mem_applyFixTrace (env : FixEnv) (fx f : FixSuggestion) (l : String)
    (h : Event.applyFixRequest f l ∈ FixErrorCommand.applyFixTrace env fx) : f = fx := by
  cases ha : env.applyResp with
  | error m =>
    simp [FixErrorCommand.applyFixTrace, ha, Notifications.showError] at h
    exact h.1
  | ok r =>
    cases hs : r.success with
    | true =>
      simp [FixErrorCommand.applyFixTrace, ha, hs, Notifications.showInfo] at h
      exact h.1
    | false =>
      simp [FixErrorCommand.applyFixTrace, ha, hs, Notifications.showError] at h
      exact h.1

theorem applyFixRequest_mem_showAndApplyFixes (env : FixEnv) (fixes : List FixSuggestion)
    (rc : Option String) (f : FixSuggestion) (l : String)
    (h : Event.applyFixRequest f l ∈ FixErrorCommand.showAndApplyFixes env fixes rc) :
    env.confirmApply = true ∧ ∃ i, env.quickPickChoice = some i ∧ fixes[i]? = some f := by
  simp only [FixErrorCommand.showAndApplyFixes, List.mem_cons] at h
  rcases h with h | h
  · simp at h
  · cases hsel : FixErrorCommand.selectedFix env fixes with
    | none => rw [hsel] at h; simp at h
    | some fx =>
      rw [hsel] at h
      simp only [List.mem_cons] at h
      rcases h with h | h
      · simp at h
      rcases h with h | h
      · simp [Notifications.confirm] at h
      · cases hc : env.confirmApply with
        | false => rw [hc] at h; simp at h
        | true =>
          rw [hc] at h
          simp only [if_true] at h
          have hf := applyFixRequest_mem_applyFixTrace env fx f l h
          subst hf
          refine ⟨rfl, ?_⟩
          simp only [FixErrorCommand.selectedFix] at hsel
          cases hq : env.quickPickChoice with
          | none => rw [hq] at hsel; simp at hsel
          | some i =>
            rw [hq] at hsel
            exact ⟨i, rfl, hsel⟩

/-- C5: in the Fix command, `applyFix` is requested only after the user both
selects a fix from the quick pick (whose items carry the fixes in server
order) and answers the confirmation dialog affirmatively; a dismissed quick
pick or a declined confirmation ends the flow with no apply-fix request, and
when both gates pass the trace is exactly quick pick, diff preview,
confirmation dialog, then the apply-fix call on the selected fix.  The last
clause lifts the gate to the whole of `execute`: any apply-fix request in
any execution implies an affirmative confirmation and a valid selection
taken from the analyze response's fixes. -/
theorem applyFix_confirmation_gate (env : FixEnv) (fixes : List FixSuggestion)
    (rc : Option String) :
    ((FixErrorCommand.quickPickItems fixes).map QPItem.fix = fixes)
  ∧ (env.quickPickChoice = none →
      FixErrorCommand.showAndApplyFixes env fixes rc
        = [Event.quickPick (FixErrorCommand.quickPickItems fixes)])
  ∧ (env.confirmApply = false →
      ∀ f l, Event.applyFixRequest f l ∉ FixErrorCommand.showAndApplyFixes env fixes rc)
  ∧ (∀ i f, env.quickPickChoice = some i → fixes[i]? = some f → env.confirmApply = true →
      FixErrorCommand.showAndApplyFixes env fixes rc
        = Event.quickPick (FixErrorCommand.quickPickItems fixes)
          :: Event.diffPreview f.original_snippet f.new_snippet
          :: Notifications.confirm "Apply this fix to your code?"
          :: FixErrorCommand.applyFixTrace env f)
  ∧ (∀ f l, Event.applyFixRequest f l ∈ FixErrorCommand.execute env →
      env.confirmApply = true ∧ ∃ i, env.quickPickChoice = some i
        ∧ ∃ r, env.analyzeResp = Except.ok r ∧ (jsFixes r.fixes)[i]? = some f) := by
  refine ⟨?_, ?_, ?_, ?_, ?_⟩
  · simp only [FixErrorCommand.quickPickItems, List.map_map]
    conv_rhs => rw [← List.enum_map_snd fixes]
    rfl
  · intro hq
    simp [FixErrorCommand.showAndApplyFixes, FixErrorCommand.selectedFix, hq]
  · intro hc f l hmem
    have := applyFixRequest_mem_showAndApplyFixes env fixes rc f l hmem
    rw [hc] at this
    exact absurd this.1 (by simp)
  · intro i f hq hf hc
    simp [FixErrorCommand.showAndApplyFixes, FixErrorCommand.selectedFix, hq, hf, hc]
  · intro f l hmem
    cases hh : BackendClient.checkHealth env.healthResp with
    | false =>
      simp [FixErrorCommand.execute, hh, Notifications.showError] at hmem
    | true =>
      cases hl : env.errorLog with
      | none => simp [FixErrorCommand.execute, hh, hl, Notifications.showWarning] at hmem
      | some log =>
        by_cases hlog : log = ""
        · simp [FixErrorCommand.execute, hh, hl, hlog, Notifications.showWarning] at hmem
        · cases har : env.analyzeResp with
          | error m =>
            simp [FixErrorCommand.execute, hh, hl, hlog, har, Notifications.showError] at hmem
          | ok r =>
            by_cases hst : r.status = "failed"
            · simp [FixErrorCommand.execute, hh, hl, hlog, har, hst,
                Notifications.showError] at hmem
            · by_cases hfx : (jsFixes r.fixes).isEmpty
              · cases hrc : r.root_cause_analysis with
                | none =>
                  simp [FixErrorCommand.execute, hh, hl, hlog, har, hst, hfx, hrc,
                    Notifications.showWarning] at hmem
                | some rca =>
                  by_cases hrce : rca = ""
                  · simp [FixErrorCommand.execute, hh, hl, hlog, har, hst, hfx, hrc, hrce,
                      Notifications.showWarning] at hmem
                  · simp [FixErrorCommand.execute, hh, hl, hlog, har, hst, hfx, hrc, hrce,
                      Notifications.showWarning] at hmem
              · have hmem' : Event.applyFixRequest f l
                    ∈ FixErrorCommand.showAndApplyFixes env (jsFixes r.fixes)
                        r.root_cause_analysis := by
                  have hex : FixErrorCommand.execute env
                      = FixErrorCommand.showAndApplyFixes env (jsFixes r.fixes)
                          r.root_cause_analysis := by
                    simp [FixErrorCommand.execute, hh, hl, hlog, har, hst, hfx]
                  rw [← hex]
                  exact hmem
                have := applyFixRequest_mem_showAndApplyFixes env (jsFixes r.fixes)
                  r.root_cause_analysis f l hmem'
                exact ⟨this.1, this.2.imp fun i hi => ⟨hi.1, r, rfl, hi.2⟩⟩

/-- Witness for C5: the fully confirmed path at a concrete environment — a
valid selection (index 0) and an affirmative confirmation produce exactly
the quick pick, the diff preview, the dialog, and the apply-fix call. -/
theorem applyFix_confirmation_gate_witness :
    FixErrorCommand.showAndApplyFixes
      { healthResp := Except.ok { status := some "running" }, errorLog := some "trace",
        analyzeResp := Except.error "unused", quickPickChoice := some 0,
        confirmApply := true,
        applyResp := Except.ok { success := true, message := "ok", fix_id := some "abc123" } }
      [{ file_path := "a.py", original_snippet := "o", new_snippet := "n",
         explanation := "e", confidence := 9/10, line_number := none }] none
      = Event.quickPick (FixErrorCommand.quickPickItems
          [{ file_path := "a.py", original_snippet := "o", new_snippet := "n",
             explanation := "e", confidence := 9/10, line_number := none }])
        :: Event.diffPreview "o" "n"
        :: Notifications.confirm "Apply this fix to your code?"
        :: FixErrorCommand.applyFixTrace
            { healthResp := Except.ok { status := some "running" }, errorLog := some "trace",
              analyzeResp := Except.error "unused", quickPickChoice := some 0,
              confirmApply := true,
              applyResp := Except.ok { success := true, message := "ok", fix_id := some "abc123" } }
            { file_path := "a.py", original_snippet := "o", new_snippet := "n",
              explanation := "e", confidence := 9/10, line_number := none } :=
  (applyFix_confirmation_gate _ _ none).2.2.2.1 0
    { file_path := "a.py", original_snippet := "o", new_snippet := "n",
      explanation := "e", confidence := 9/10, line_number := none } rfl rfl rfl

/-- C1 (amended): for every AnalyzeResponse whose status equals "failed",
the Fix command's execute shows exactly one error notification — carrying
`error_message` when it is present and non-empty, and the fallback text
"Failed to analyze error" otherwise (the JS `||` treats a present empty
message as absent) — and returns without presenting any fix-selection UI and
without calling applyFix, for every content of the fixes list, including a
non-empty one. -/
theorem fixExecute_failed_error_only (env : FixEnv) (log : String) (r : AnalyzeResponse)
    (hh : BackendClient.checkHealth env.healthResp = true)
    (hl : env.errorLog = some log) (hne : log ≠ "")
    (ha : env.analyzeResp = Except.ok r) (hs : r.status = "failed") :
    FixErrorCommand.execute env
      = [Notifications.showError (jsOrStr r.error_message "Failed to analyze error")]
  ∧ (∀ m, r.error_message = some m → m ≠ "" →
      FixErrorCommand.execute env = [Notifications.showError m])
  ∧ (∀ items, Event.quickPick items ∉ FixErrorCommand.execute env)
  ∧ (∀ f l, Event.applyFixRequest f l ∉ FixErrorCommand.execute env) := by
  have hex : FixErrorCommand.execute env
      = [Notifications.showError (jsOrStr r.error_message "Failed to analyze error")] := by
    simp [FixErrorCommand.execute, hh, hl, hne, ha, hs]
  refine ⟨hex, ?_, ?_, ?_⟩
  · intro m hm hmne
    rw [hex, hm]
    simp [jsOrStr, hmne]
  · intro items
    rw [hex]
    simp [Notifications.showError]
  · intro f l
    rw [hex]
    simp [Notifications.showError]

/-- Witness for C1: a failed analysis with a non-empty error message and a
non-empty fixes list shows only the error notification. -/
theorem fixExecute_failed_error_only_witness :
    FixErrorCommand.execute
      { healthResp := Except.ok { status := some "running" }, errorLog := some "trace",
        analyzeResp := Except.ok
          { status := "failed", parsed_error := none, root_cause_analysis := none,
            fixes := some [{ file_path := "a.py", original_snippet := "o",
                             new_snippet := "n", explanation := "e",
                             confidence := 9/10, line_number := none }],
            execution_time := 0, tokens_used := 0,
            error_message := some "DB connection lost" },
        quickPickChoice := some 0, confirmApply := true,
        applyResp := Except.error "unused" }
      = [Notifications.showError "DB connection lost"] :=
  (fixExecute_failed_error_only _ "trace"
      { status := "failed", parsed_error := none, root_cause_analysis := none,
        fixes := some [{ file_path := "a.py", original_snippet := "o",
                         new_snippet := "n", explanation := "e",
                         confidence := 9/10, line_number := none }],
        execution_time := 0, tokens_used := 0,
        error_message := some "DB connection lost" }
      (by decide) rfl (by decide) rfl rfl).2.1 "DB connection lost" rfl (by decide)

/-- C1 counterexample: with status "failed" and `error_message` present but
equal to the empty string, the notification shown carries the fallback text
"Failed to analyze error", not the present (empty) `error_message`: the
claim's "carrying error_message when present" fails at this input. -/
theorem fixExecute_failed_emptyMessage_cex :
    FixErrorCommand.execute
      { healthResp := Except.ok { status := some "running" }, errorLog := some "trace",
        analyzeResp := Except.ok
          { status := "failed", parsed_error := none, root_cause_analysis := none,
            fixes := some [], execution_time := 0, tokens_used := 0,
            error_message := some "" },
        quickPickChoice := none, confirmApply := false, applyResp := Except.error "x" }
      = [Event.errorNotif "rootCauseAI: Failed to analyze error"]
  ∧ Event.errorNotif "rootCauseAI: "
      ∉ FixErrorCommand.execute
          { healthResp := Except.ok { status := some "running" }, errorLog := some "trace",
            analyzeResp := Except.ok
              { status := "failed", parsed_error := none, root_cause_analysis := none,
                fixes := some [], execution_time := 0, tokens_used := 0,
                error_message := some "" },
            quickPickChoice := none, confirmApply := false, applyResp := Except.error "x" } := by
  with_unfolding_all decide

/-- C3 (amended): for every AnalyzeResponse with status ≠ "failed" and an
empty or absent fixes list, the Fix command shows the no-fixes warning,
opens a root-cause panel exactly when `root_cause_analysis` is present and
non-empty (the JS truthiness check skips the panel for a present empty
string), and returns without calling applyFix and without any fix-selection
UI. -/
theorem fixExecute_noFixes_spec (env : FixEnv) (log : String) (r : AnalyzeResponse)
    (hh : BackendClient.checkHealth env.healthResp = true)
    (hl : env.errorLog = some log) (hne : log ≠ "")
    (ha : env.analyzeResp = Except.ok r) (hs : r.status ≠ "failed")
    (hf : r.fixes = none ∨ r.fixes = some []) :
    Notifications.showWarning "No fixes generated. The error might be too complex."
      ∈ FixErrorCommand.execute env
  ∧ (∀ rc, r.root_cause_analysis = some rc → rc ≠ "" →
      FixErrorCommand.execute env
        = [Notifications.showWarning "No fixes generated. The error might be too complex.",
           Event.rootCausePanel rc])
  ∧ ((r.root_cause_analysis = none ∨ r.root_cause_analysis = some "") →
      FixErrorCommand.execute env
        = [Notifications.showWarning "No fixes generated. The error might be too complex."])
  ∧ (∀ f l, Event.applyFixRequest f l ∉ FixErrorCommand.execute env)
  ∧ (∀ items, Event.quickPick items ∉ FixErrorCommand.execute env) := by
  have hempty : (jsFixes r.fixes).isEmpty = true := by
    rcases hf with hf | hf <;> simp [jsFixes, hf]
  have hex : FixErrorCommand.execute env
      = Notifications.showWarning "No fixes generated. The error might be too complex."
        :: (match r.root_cause_analysis with
            | some rc => if rc = "" then [] else [Event.rootCausePanel rc]
            | none => []) := by
    simp [FixErrorCommand.execute, hh, hl, hne, ha, hs, hempty]
  refine ⟨?_, ?_, ?_, ?_, ?_⟩
  · rw [hex]; exact List.mem_cons_self _ _
  · intro rc hrc hrcne
    rw [hex, hrc]
    simp [hrcne]
  · rintro (hrc | hrc)
    · rw [hex, hrc]
    · rw [hex, hrc]
      simp
  · intro f l
    rw [hex]
    cases hrc : r.root_cause_analysis with
    | none => simp [Notifications.showWarning]
    | some rc =>
      by_cases hrce : rc = "" <;> simp [hrce, Notifications.showWarning]
  · intro items
    rw [hex]
    cases hrc : r.root_cause_analysis with
    | none => simp [Notifications.showWarning]
    | some rc =>
      by_cases hrce : rc = "" <;> simp [hrce, Notifications.showWarning]

/-- Witness for C3: empty fixes with a non-empty root cause produce the
warning followed by the root-cause panel. -/
theorem fixExecute_noFixes_spec_witness :
    FixErrorCommand.execute
      { healthResp := Except.ok { status := some "running" }, errorLog := some "trace",
        analyzeResp := Except.ok
          { status := "completed", parsed_error := none,
            root_cause_analysis := some "Null pointer in foo()", fixes := some [],
            execution_time := 0, tokens_used := 0, error_message := none },
        quickPickChoice := none, confirmApply := false, applyResp := Except.error "x" }
      = [Notifications.showWarning "No fixes generated. The error might be too complex.",
         Event.rootCausePanel "Null pointer in foo()"] :=
  (fixExecute_noFixes_spec _ "trace"
      { status := "completed", parsed_error := none,
        root_cause_analysis := some "Null pointer in foo()", fixes := some [],
        execution_time := 0, tokens_used := 0, error_message := none }
      (by decide) rfl (by decide) rfl (by decide) (Or.inr rfl)).2.1
    "Null pointer in foo()" rfl (by decide)

/-- C3 counterexample: with status ≠ "failed", empty fixes and
`root_cause_analysis` present but equal to the empty string, no root-cause
panel is opened: the claim's "opens a root-cause panel exactly when
root_cause_analysis is present" fails at this input. -/
theorem fixExecute_rootCause_empty_cex :
    FixErrorCommand.execute
      { healthResp := Except.ok { status := some "running" }, errorLog := some "trace",
        analyzeResp := Except.ok
          { status := "completed", parsed_error := none, root_cause_analysis := some "",
            fixes := some [], execution_time := 0, tokens_used := 0, error_message := none },
        quickPickChoice := none, confirmApply := false, applyResp := Except.error "x" }
      = [Event.warnNotif "rootCauseAI: No fixes generated. The error might be too complex."]
  ∧ (Event.rootCausePanel ""
      ∉ FixErrorCommand.execute
          { healthResp := Except.ok { status := some "running" }, errorLog := some "trace",
            analyzeResp := Except.ok
              { status := "completed", parsed_error := none, root_cause_analysis := some "",
                fixes := some [], execution_time := 0, tokens_used := 0,
                error_message := none },
            quickPickChoice := none, confirmApply := false,
            applyResp := Except.error "x" }) := by
  with_unfolding_all decide
